import Mathlib

/-!
Verification of the duckdb-pipeline repository: a shallow embedding of the
ingestion pipeline (`data_lake_ingester.py`), the transform pipeline
(`data_lake_transformer.py`) and the batch driver
(`scripts/run_batch_agg_data.py`), together with theorems settling the
spec claims about them.
-/

namespace DuckdbPipeline

/-! ## Date/time model and strftime-style rendering

`datetime.strftime` zero-pads `%m`, `%d`, `%H`, `%M`, `%S` to two digits,
renders `%Y` as the four-digit year (`YYYY`), and `%-H` as the hour with no
padding. -/

/-- Two-digit zero-padded rendering, as strftime `%H`, `%m`, `%d`, `%M`, `%S`. -/
def pad2 (n : Nat) : String :=
  if n < 10 then "0" ++ toString n else toString n

/-- Four-digit zero-padded rendering, as strftime `%Y` for the year. -/
def pad4 (n : Nat) : String :=
  if n < 10 then "000" ++ toString n
  else if n < 100 then "00" ++ toString n
  else if n < 1000 then "0" ++ toString n
  else toString n

/-- An hour-resolution timestamp (the spec's SourceReference timestamp:
minutes and seconds carry no meaning for the ingester). -/
structure Datetime where
  year : Nat
  month : Nat
  day : Nat
  hour : Nat
  deriving DecidableEq, Repr

/-- strftime "%Y-%m-%d". -/
def fmtDate (d : Datetime) : String :=
  pad4 d.year ++ "-" ++ pad2 d.month ++ "-" ++ pad2 d.day

/-- strftime "%Y-%m-%d-%-H": date plus the hour with NO leading zero. -/
def fmtDateHourUnpadded (d : Datetime) : String :=
  fmtDate d ++ "-" ++ toString d.hour

/-- strftime "%H": the hour, two digits, zero-padded. -/
def fmtHourPadded (d : Datetime) : String :=
  pad2 d.hour

/-- `str(datetime)` for an hour-resolution value: "YYYY-MM-DD HH:00:00". -/
def pyDatetimeStr (d : Datetime) : String :=
  fmtDate d ++ " " ++ pad2 d.hour ++ ":00:00"

/-! ## DataLakeIngester: source filename / URL / sink key derivation
(`data_lake_ingester.py`, lines 259-279 and 325-341). -/

/-- The hourly GHArchive dump filename built in `ingest_hourly_gharchive`:
`f"{date_hour}.json.gz"` with `date_hour = strftime(process_date, "%Y-%m-%d-%-H")`. -/
def derive_source_filename (process_date : Datetime) : String :=
  fmtDateHourUnpadded process_date ++ ".json.gz"

/-- The source URL built in `ingest_hourly_gharchive`:
`f"http://data.gharchive.org/{data_filename}"`. -/
def derive_source_url (process_date : Datetime) : String :=
  "http://data.gharchive.org/" ++ derive_source_filename process_date

/-- `DataLakeIngester._generate_sink_key`:
`f"{sink_base_path}/{date_partition}/{hour_partition}/{filename}"` with
`date_partition = strftime("%Y-%m-%d")` and `hour_partition = strftime("%H")`. -/
def generate_sink_key (process_date : Datetime) (filename : String)
    (sink_base_path : String) : String :=
  sink_base_path ++ "/" ++ fmtDate process_date ++ "/" ++
    fmtHourPadded process_date ++ "/" ++ filename

/-! Helper facts about the digit renderings. -/

theorem toString_length_one_of_lt_ten : ∀ h : Nat, h < 10 →
    (toString h).length = 1 := by decide

theorem pad2_length_two_of_lt_hundred : ∀ h : Nat, h < 100 →
    (pad2 h).length = 2 := by decide

theorem pad2_eq_zero_prepend_of_lt_ten (h : Nat) (hlt : h < 10) :
    pad2 h = "0" ++ toString h := by
  simp [pad2, hlt]

/-- C1: for every hour-resolution timestamp, the source filename built by
`ingest_hourly_gharchive` renders the hour unpadded (one character for hours
below 10, e.g. hour 3 gives `...-3.json.gz`), while the hour segment of the
sink key built by `_generate_sink_key` is always two digits, zero-padded
(hour 3 gives a `/03/` segment). -/
theorem c1_source_unpadded_sink_padded (d : Datetime) (f base : String)
    (h24 : d.hour < 24) :
    derive_source_filename d =
      fmtDate d ++ ("-" ++ (toString d.hour ++ ".json.gz"))
    ∧ (d.hour < 10 → (toString d.hour).length = 1)
    ∧ generate_sink_key d f base =
      base ++ ("/" ++ (fmtDate d ++ ("/" ++ (pad2 d.hour ++ ("/" ++ f)))))
    ∧ (pad2 d.hour).length = 2
    ∧ (d.hour < 10 → pad2 d.hour = "0" ++ toString d.hour) := by
  refine ⟨?_, fun h10 => toString_length_one_of_lt_ten _ h10, ?_, ?_, ?_⟩
  · simp [derive_source_filename, fmtDateHourUnpadded, String.append_assoc]
  · simp [generate_sink_key, fmtHourPadded, String.append_assoc]
  · exact pad2_length_two_of_lt_hundred _ (Nat.lt_trans h24 (by decide))
  · exact fun h10 => pad2_eq_zero_prepend_of_lt_ten _ h10

/-- C1 witness: at hour 3 of 2023-01-01 the source filename is
`2023-01-01-3.json.gz` (unpadded) and the sink key hour segment is `03`. -/
theorem c1_witness :
    derive_source_filename ⟨2023, 1, 1, 3⟩ = "2023-01-01-3.json.gz"
    ∧ generate_sink_key ⟨2023, 1, 1, 3⟩ "2023-01-01-3.json.gz" "gharchive/events"
      = "gharchive/events/2023-01-01/03/2023-01-01-3.json.gz" := by
  have h := c1_source_unpadded_sink_padded ⟨2023, 1, 1, 3⟩
    "2023-01-01-3.json.gz" "gharchive/events" (by decide)
  exact ⟨by rw [h.1]; rfl, by rw [h.2.2.1]; rfl⟩

/-- C9: `_generate_sink_key` is a pure function of its three arguments, with
shape `{base_path}/{YYYY-MM-DD}/{HH}/{filename}`; in particular for the
timestamp 2023-01-01T09:00, filename "f.json.gz" and base path "base" it
returns "base/2023-01-01/09/f.json.gz". -/
theorem c9_generate_sink_key_shape (d : Datetime) (f base : String) :
    generate_sink_key d f base =
      base ++ "/" ++ (pad4 d.year ++ "-" ++ pad2 d.month ++ "-" ++ pad2 d.day)
        ++ "/" ++ pad2 d.hour ++ "/" ++ f
    ∧ generate_sink_key ⟨2023, 1, 1, 9⟩ "f.json.gz" "base"
      = "base/2023-01-01/09/f.json.gz" := by
  constructor
  · simp [generate_sink_key, fmtDate, fmtHourPadded, String.append_assoc]
  · rfl

/-! ## DataLakeTransformer: relation model
(`data_lake_transformer.py`).

Relations are modelled as lists of rows. `aggregate_raw_gharchive` runs
`SELECT event_type, repo_id, repo_name, repo_url,
DATE_TRUNC('day', CAST(event_date AS TIMESTAMP)) AS event_date,
count(*) AS event_count FROM ... GROUP BY ALL`, so its input rows carry the
five referenced columns and its output one row per distinct group. -/

/-- A second-resolution timestamp: the value of `CAST(event_date AS TIMESTAMP)`. -/
structure Timestamp where
  year : Nat
  month : Nat
  day : Nat
  hour : Nat
  minute : Nat
  second : Nat
  deriving DecidableEq, Repr

/-- SQL `DATE_TRUNC('day', t)`: keep the calendar date, zero the time part. -/
def date_trunc_day (t : Timestamp) : Timestamp :=
  { t with hour := 0, minute := 0, second := 0 }

/-- An input row of `aggregate_raw_gharchive`: the five columns the query reads. -/
structure RawEvent where
  event_type : String
  repo_id : Int
  repo_name : String
  repo_url : String
  event_date : Timestamp
  deriving DecidableEq, Repr

/-- The `GROUP BY ALL` key: every non-aggregated select column, the timestamp
already truncated to day granularity. -/
structure AggKey where
  event_type : String
  repo_id : Int
  repo_name : String
  repo_url : String
  event_date : Timestamp
  deriving DecidableEq, Repr

/-- The grouping key of one raw event under the aggregate query's select list. -/
def aggKeyOf (r : RawEvent) : AggKey :=
  ⟨r.event_type, r.repo_id, r.repo_name, r.repo_url, date_trunc_day r.event_date⟩

/-- An output row of `aggregate_raw_gharchive`. -/
structure AggRow where
  event_type : String
  repo_id : Int
  repo_name : String
  repo_url : String
  event_date : Timestamp
  event_count : Nat
  deriving DecidableEq, Repr

/-- The group key carried by an aggregate output row. -/
def AggRow.key (o : AggRow) : AggKey :=
  ⟨o.event_type, o.repo_id, o.repo_name, o.repo_url, o.event_date⟩

/-- `DataLakeTransformer.aggregate_raw_gharchive`: one output row per distinct
group key occurring in the input, with `event_count = count(*)` over that
group (`GROUP BY ALL` semantics of the query at lines 105-115). -/
def aggregate_raw_gharchive (rows : List RawEvent) : List AggRow :=
  ((rows.map aggKeyOf).dedup).map (fun k =>
    ⟨k.event_type, k.repo_id, k.repo_name, k.repo_url, k.event_date,
      (rows.filter (fun r => aggKeyOf r = k)).length⟩)

theorem length_filter_eq_count_map {ρ κ : Type} [DecidableEq κ]
    (f : ρ → κ) (rows : List ρ) (k : κ) :
    (rows.filter (fun r => decide (f r = k))).length = (rows.map f).count k := by
  induction rows with
  | nil => rfl
  | cons r rs ih =>
    by_cases hk : f r = k
    · simp [List.filter_cons, List.count_cons, hk, ih]
    · simp [List.filter_cons, List.count_cons, hk, ih]

/-- C2: every output row of `aggregate_raw_gharchive` counts exactly the input
rows of its group; every input row's group appears in the output; and the
`event_count` values sum to the total number of input rows. -/
theorem c2_aggregate_counts (rows : List RawEvent) :
    (∀ o ∈ aggregate_raw_gharchive rows,
        o.event_count = (rows.filter (fun r => aggKeyOf r = o.key)).length)
    ∧ (∀ r ∈ rows, ∃ o ∈ aggregate_raw_gharchive rows, o.key = aggKeyOf r)
    ∧ ((aggregate_raw_gharchive rows).map AggRow.event_count).sum
        = rows.length := by
  refine ⟨?_, ?_, ?_⟩
  · intro o ho
    simp only [aggregate_raw_gharchive, List.mem_map] at ho
    obtain ⟨k, -, rfl⟩ := ho
    rfl
  · intro r hr
    refine ⟨⟨(aggKeyOf r).event_type, (aggKeyOf r).repo_id, (aggKeyOf r).repo_name,
      (aggKeyOf r).repo_url, (aggKeyOf r).event_date,
      (rows.filter (fun x => aggKeyOf x = aggKeyOf r)).length⟩, ?_, rfl⟩
    simp only [aggregate_raw_gharchive, List.mem_map]
    exact ⟨aggKeyOf r, List.mem_dedup.2 (List.mem_map_of_mem aggKeyOf hr), rfl⟩
  · have hcnt : ∀ k : AggKey,
        (rows.filter (fun r => aggKeyOf r = k)).length
          = (rows.map aggKeyOf).count k := fun k =>
      length_filter_eq_count_map aggKeyOf rows k
    calc ((aggregate_raw_gharchive rows).map AggRow.event_count).sum
        = (((rows.map aggKeyOf).dedup).map
            (fun k => (rows.map aggKeyOf).count k)).sum := by
          simp only [aggregate_raw_gharchive, List.map_map, hcnt]
          rfl
      _ = (rows.map aggKeyOf).length :=
          List.sum_map_count_dedup_eq_length _
      _ = rows.length := List.length_map rows aggKeyOf

/-! ## clean_raw_gharchive (`data_lake_transformer.py`, lines 74-96)

The raw relation built by `read_json_auto` has whatever columns the JSON
provides; a raw record is modelled as the nested fields the clean query
projects plus an arbitrary bag of extra fields. A clean row is an ordered
association list of column name to value, so the output column set is part
of the model. -/

/-- A loosely-typed column value. -/
inductive Value where
  | str : String → Value
  | int : Int → Value
  deriving DecidableEq, Repr

/-- The `actor` struct of a raw GHArchive record (fields the query reads). -/
structure Actor where
  id : Int
  login : String
  display_login : String
  deriving DecidableEq, Repr

/-- The `repo` struct of a raw GHArchive record (fields the query reads). -/
structure Repo where
  id : Int
  name : String
  url : String
  deriving DecidableEq, Repr

/-- A raw GHArchive record: the fields read by the clean query, plus any
extra fields the JSON happened to contain. -/
structure RawGhRecord where
  id : String
  actor : Actor
  type : String
  repo : Repo
  created_at : String
  extra : List (String × Value)
  deriving DecidableEq, Repr

/-- One output row of the clean query: the nine selected expressions with
their `AS` aliases, in select-list order. -/
def cleanRowOf (r : RawGhRecord) : List (String × Value) :=
  [("event_id", .str r.id),
   ("user_id", .int r.actor.id),
   ("user_name", .str r.actor.login),
   ("user_display_name", .str r.actor.display_login),
   ("event_type", .str r.type),
   ("repo_id", .int r.repo.id),
   ("repo_name", .str r.repo.name),
   ("repo_url", .str r.repo.url),
   ("event_date", .str r.created_at)]

/-- `DataLakeTransformer.clean_raw_gharchive`: a per-row projection with no
WHERE clause, so a plain map over the raw relation. -/
def clean_raw_gharchive (rows : List RawGhRecord) : List (List (String × Value)) :=
  rows.map cleanRowOf

/-- The nine output column names of the clean query, in order. -/
def cleanColumns : List String :=
  ["event_id", "user_id", "user_name", "user_display_name", "event_type",
   "repo_id", "repo_name", "repo_url", "event_date"]

/-- C3: `clean_raw_gharchive` keeps every raw row (no filtering, order
preserved), emits exactly the nine named columns whatever extra fields the
raw record carries, and each column is a renaming of the corresponding raw
field, untouched by the extra fields. -/
theorem c3_clean_projection (rows : List RawGhRecord) :
    (clean_raw_gharchive rows).length = rows.length
    ∧ (∀ i : Nat, (clean_raw_gharchive rows)[i]? = (rows[i]?).map cleanRowOf)
    ∧ (∀ out ∈ clean_raw_gharchive rows, out.map Prod.fst = cleanColumns)
    ∧ (∀ r : RawGhRecord, ∀ extra : List (String × Value),
        cleanRowOf { r with extra := extra } = cleanRowOf r)
    ∧ (∀ r : RawGhRecord,
        (cleanRowOf r).lookup "event_id" = some (.str r.id)
        ∧ (cleanRowOf r).lookup "user_id" = some (.int r.actor.id)
        ∧ (cleanRowOf r).lookup "user_name" = some (.str r.actor.login)
        ∧ (cleanRowOf r).lookup "user_display_name"
            = some (.str r.actor.display_login)
        ∧ (cleanRowOf r).lookup "event_type" = some (.str r.type)
        ∧ (cleanRowOf r).lookup "repo_id" = some (.int r.repo.id)
        ∧ (cleanRowOf r).lookup "repo_name" = some (.str r.repo.name)
        ∧ (cleanRowOf r).lookup "repo_url" = some (.str r.repo.url)
        ∧ (cleanRowOf r).lookup "event_date" = some (.str r.created_at)) := by
  refine ⟨List.length_map rows cleanRowOf, ?_, ?_, fun r extra => rfl, ?_⟩
  · intro i
    simp [clean_raw_gharchive]
  · intro out hout
    simp only [clean_raw_gharchive, List.mem_map] at hout
    obtain ⟨r, -, rfl⟩ := hout
    rfl
  · intro r
    refine ⟨rfl, ?_, ?_, ?_, ?_, ?_, ?_, ?_, ?_⟩ <;> simp [cleanRowOf, List.lookup]

/-- C2 witness: on three events of which two share a group, the
`event_count` values sum to the input row count, and the group of the first
event appears in the output. -/
theorem c2_witness :
    ((aggregate_raw_gharchive
        [⟨"PushEvent", 1, "r", "u", ⟨2023, 1, 1, 5, 0, 0⟩⟩,
         ⟨"PushEvent", 1, "r", "u", ⟨2023, 1, 1, 7, 30, 0⟩⟩,
         ⟨"ForkEvent", 2, "s", "v", ⟨2023, 1, 2, 0, 0, 0⟩⟩]).map
      AggRow.event_count).sum = 3
    ∧ ∃ o ∈ aggregate_raw_gharchive
        [⟨"PushEvent", 1, "r", "u", ⟨2023, 1, 1, 5, 0, 0⟩⟩,
         ⟨"PushEvent", 1, "r", "u", ⟨2023, 1, 1, 7, 30, 0⟩⟩,
         ⟨"ForkEvent", 2, "s", "v", ⟨2023, 1, 2, 0, 0, 0⟩⟩],
        o.key = aggKeyOf ⟨"PushEvent", 1, "r", "u", ⟨2023, 1, 1, 5, 0, 0⟩⟩ :=
  ⟨((c2_aggregate_counts _).2.2).trans rfl,
   (c2_aggregate_counts _).2.1 _ (by decide)⟩

/-- C3 witness: a raw record carrying an extra field still cleans to exactly
the nine named columns. -/
theorem c3_witness :
    (cleanRowOf ⟨"1", ⟨2, "alice", "Alice"⟩, "PushEvent", ⟨3, "r", "u"⟩,
        "2023-01-01T00:00:00Z", [("payload", .str "x")]⟩).map Prod.fst
      = cleanColumns :=
  (c3_clean_projection
    [⟨"1", ⟨2, "alice", "Alice"⟩, "PushEvent", ⟨3, "r", "u"⟩,
      "2023-01-01T00:00:00Z", [("payload", .str "x")]⟩]).2.2.1 _ (by decide)

/-! ## HttpDataCollector.collect (`data_lake_ingester.py`, lines 94-115)

The method returns `io.BytesIO(response.content)` when
`response.status_code == 200`; otherwise it logs and calls
`response.raise_for_status()`, which raises only for status codes 400-599
and returns `None` otherwise — so for those statuses `collect` falls off
the end and returns Python `None`. -/

/-- An HTTP response: status code and body bytes. -/
structure HttpResponse where
  status_code : Nat
  content : List UInt8
  deriving DecidableEq, Repr

/-- What `collect` can hand back on the non-raising paths: a seekable
in-memory stream over the given bytes (`io.BytesIO`), or Python `None`. -/
inductive CollectValue where
  | stream : List UInt8 → CollectValue
  | pyNone : CollectValue
  deriving DecidableEq, Repr

/-- `requests.Response.raise_for_status`: raises `HTTPError` carrying the
status code for 4xx and 5xx responses, returns `None` otherwise. -/
def raise_for_status (r : HttpResponse) : Except Nat Unit :=
  if 400 ≤ r.status_code ∧ r.status_code < 600 then .error r.status_code
  else .ok ()

/-- `HttpDataCollector.collect` applied to the response of
`requests.get(source_url)`: the error value is the raised status code. -/
def collect (r : HttpResponse) : Except Nat CollectValue :=
  if r.status_code = 200 then .ok (.stream r.content)
  else
    match raise_for_status r with
    | .error c => .error c
    | .ok _ => .ok .pyNone

/-- C4 counterexample: a 201 response (2xx range) with a non-empty body makes
`collect` return Python `None` — neither a stream holding the body nor an
error — and a 304 response (non-2xx) also returns `None` rather than failing
with an error carrying the status code. -/
theorem c4_counterexample :
    (200 ≤ 201 ∧ 201 < 300)
    ∧ collect ⟨201, [7]⟩ = .ok .pyNone
    ∧ collect ⟨201, [7]⟩ ≠ .ok (.stream [7])
    ∧ ¬ (201 < 200 ∨ 300 ≤ 201)
    ∧ (201 < 200 ∨ 300 ≤ 304)
    ∧ collect ⟨304, []⟩ = .ok .pyNone
    ∧ ∀ c : Nat, collect ⟨304, []⟩ ≠ .error c := by
  refine ⟨by decide, rfl, by simp [collect, raise_for_status], by decide,
    by decide, rfl, fun c => ?_⟩
  simp [collect, raise_for_status]

/-- C4 (amended): `collect` returns the full-body stream exactly for status
code 200; for status codes 400-599 it fails with an error carrying that
status code; for every other status code it returns Python `None`; and a
returned stream always holds the complete response body (never a partial
stream). -/
theorem c4_collect_status (r : HttpResponse) :
    (r.status_code = 200 → collect r = .ok (.stream r.content))
    ∧ (400 ≤ r.status_code ∧ r.status_code < 600 →
        collect r = .error r.status_code)
    ∧ (r.status_code ≠ 200 →
        ¬ (400 ≤ r.status_code ∧ r.status_code < 600) →
        collect r = .ok .pyNone)
    ∧ (∀ b : List UInt8, collect r = .ok (.stream b) →
        b = r.content ∧ r.status_code = 200) := by
  refine ⟨fun h200 => by simp [collect, h200], fun herr => ?_, fun hne hok => ?_, ?_⟩
  · have : r.status_code ≠ 200 := by omega
    simp [collect, raise_for_status, this, herr]
  · simp [collect, raise_for_status, hne, hok]
  · intro b hb
    by_cases h200 : r.status_code = 200
    · simp [collect, h200] at hb
      exact ⟨hb.symm, h200⟩
    · by_cases herr : 400 ≤ r.status_code ∧ r.status_code < 600
      · simp [collect, raise_for_status, h200, herr] at hb
      · simp [collect, raise_for_status, h200, herr] at hb

/-- C4 witness: a 200 response with body `[7]` yields the full-body stream,
and a 404 response fails with an error carrying 404. -/
theorem c4_witness :
    collect ⟨200, [7]⟩ = .ok (.stream [7])
    ∧ collect ⟨404, []⟩ = .error 404 :=
  ⟨(c4_collect_status ⟨200, [7]⟩).1 rfl,
   (c4_collect_status ⟨404, []⟩).2.1 (by decide)⟩

/-! ## Transformer error handling (`data_lake_transformer.py`, lines 26-60)

`serialise_raw_data` and `aggregate_silver_data` wrap their bodies in
`try/except` whose handler runs `self.logger.error(...)` and then `raise`.
`DataLakeTransformer.__init__` assigns only `self.con`, and neither the
instance nor the class defines `logger`, so the handler's attribute lookup
itself raises `AttributeError`, replacing the in-flight exception. -/

/-- Python exceptions the embedded fragments can raise. -/
inductive PyExc where
  /-- `AttributeError: '...' object has no attribute <name>`. -/
  | attributeError : String → PyExc
  /-- `TypeError` from calling with an unexpected keyword argument. -/
  | typeError : String → PyExc
  /-- Any exception raised inside a transform body (registration, cleaning,
  aggregation or export failure), tagged with its message. -/
  | transformError : String → PyExc
  deriving DecidableEq, Repr

/-- The instance attributes a `DataLakeTransformer` object has after
`__init__` (only `self.con` is ever assigned; no `logger`). -/
def transformerAttrs : List String := ["con"]

/-- Python attribute lookup on a transformer object. -/
def getattrTransformer (name : String) : Except PyExc Unit :=
  if name ∈ transformerAttrs then .ok ()
  else .error (.attributeError name)

/-- The shared `except Exception as e:` handler of `serialise_raw_data` and
`aggregate_silver_data`: evaluate `self.logger`, call `.error(...)`, then
`raise` re-raises `e`. If the attribute lookup itself raises, that new
exception propagates instead of `e`. -/
def transformerExceptHandler (e : PyExc) : Except PyExc Unit :=
  match getattrTransformer "logger" with
  | .ok _ => .error e
  | .error a => .error a

/-- `DataLakeTransformer.serialise_raw_data`, parametrised by the outcome of
its try-body (register → clean → create sink path → export). -/
def serialise_raw_data (body : Except PyExc Unit) : Except PyExc Unit :=
  match body with
  | .ok _ => .ok ()
  | .error e => transformerExceptHandler e

/-- `DataLakeTransformer.aggregate_silver_data`, parametrised by the outcome
of its try-body (aggregate → create sink path → export). -/
def aggregate_silver_data (body : Except PyExc Unit) : Except PyExc Unit :=
  match body with
  | .ok _ => .ok ()
  | .error e => transformerExceptHandler e

theorem transformer_error_replaced (e : PyExc) :
    serialise_raw_data (.error e) = .error (.attributeError "logger")
    ∧ aggregate_silver_data (.error e) = .error (.attributeError "logger")
    ∧ (e ≠ .attributeError "logger" →
        serialise_raw_data (.error e) ≠ .error e
        ∧ aggregate_silver_data (.error e) ≠ .error e) := by
  refine ⟨rfl, rfl, fun hne => ⟨fun h => hne ?_, fun h => hne ?_⟩⟩
  · simpa [serialise_raw_data, transformerExceptHandler,
      getattrTransformer, transformerAttrs] using h.symm
  · simpa [aggregate_silver_data, transformerExceptHandler,
      getattrTransformer, transformerAttrs] using h.symm

/-- C5: when the try-body of `serialise_raw_data` or `aggregate_silver_data`
fails — here a registration failure — the caller receives the `AttributeError`
for the missing `logger` attribute, not the original exception, so the
original exception is NOT re-raised unmodified after logging. -/
theorem c5_attribute_error_masks_original :
    serialise_raw_data (.error (.transformError "read_json_auto failed"))
      = .error (.attributeError "logger")
    ∧ serialise_raw_data (.error (.transformError "read_json_auto failed"))
      ≠ .error (.transformError "read_json_auto failed")
    ∧ aggregate_silver_data (.error (.transformError "export failed"))
      = .error (.attributeError "logger")
    ∧ aggregate_silver_data (.error (.transformError "export failed"))
      ≠ .error (.transformError "export failed") :=
  ⟨(transformer_error_replaced (.transformError "read_json_auto failed")).1,
   ((transformer_error_replaced
      (.transformError "read_json_auto failed")).2.2 (by decide)).1,
   (transformer_error_replaced (.transformError "export failed")).2.1,
   ((transformer_error_replaced
      (.transformError "export failed")).2.2 (by decide)).2⟩

/-! ## Decimal rendering length facts, used for the export filename. -/

theorem toDigitsCore_fuel_irrel (n : Nat) : ∀ (f g : Nat) (ds : List Char),
    n < f → n < g → Nat.toDigitsCore 10 f n ds = Nat.toDigitsCore 10 g n ds := by
  induction n using Nat.strong_induction_on with
  | _ n ih =>
    intro f g ds hf hg
    obtain ⟨f', rfl⟩ : ∃ f', f = f' + 1 := ⟨f - 1, by omega⟩
    obtain ⟨g', rfl⟩ : ∃ g', g = g' + 1 := ⟨g - 1, by omega⟩
    simp only [Nat.toDigitsCore]
    by_cases h : n / 10 = 0
    · simp [h]
    · simp only [h, if_false]
      have hpos : 0 < n := by
        by_contra hz
        exact h (by omega)
      have hlt : n / 10 < n := Nat.div_lt_self hpos (by decide)
      exact ih (n / 10) hlt f' g' _ (by omega) (by omega)

theorem repr_length_succ (n : Nat) (h : 10 ≤ n) :
    (Nat.repr n).length = (Nat.repr (n / 10)).length + 1 := by
  have hdiv : ¬ (n / 10 = 0) := by omega
  show (Nat.toDigitsCore 10 (n + 1) n []).length
      = (Nat.toDigitsCore 10 (n / 10 + 1) (n / 10) []).length + 1
  have step : Nat.toDigitsCore 10 (n + 1) n []
      = Nat.toDigitsCore 10 n (n / 10) [Nat.digitChar (n % 10)] := by
    simp only [Nat.toDigitsCore]
    simp [hdiv]
  have hlt : n / 10 < n := Nat.div_lt_self (by omega) (by decide)
  rw [step, Nat.toDigitsCore_lens_eq]
  have := toDigitsCore_fuel_irrel (n / 10) n (n / 10 + 1) [] hlt (by omega)
  rw [this]

theorem toString_length_two (n : Nat) (h1 : 10 ≤ n) (h2 : n < 100) :
    (toString n).length = 2 := by
  have h := repr_length_succ n h1
  have hb : (Nat.repr (n / 10)).length = 1 :=
    toString_length_one_of_lt_ten (n / 10) (by omega)
  exact h.trans (by rw [hb])

theorem toString_length_three (n : Nat) (h1 : 100 ≤ n) (h2 : n < 1000) :
    (toString n).length = 3 := by
  have h := repr_length_succ n (by omega)
  have hb : (Nat.repr (n / 10)).length = 2 :=
    toString_length_two (n / 10) (by omega) (by omega)
  exact h.trans (by rw [hb])

theorem toString_length_four (n : Nat) (h1 : 1000 ≤ n) (h2 : n < 10000) :
    (toString n).length = 4 := by
  have h := repr_length_succ n (by omega)
  have hb : (Nat.repr (n / 10)).length = 3 :=
    toString_length_three (n / 10) (by omega) (by omega)
  exact h.trans (by rw [hb])

theorem pad4_length_four (n : Nat) (h : n < 10000) : (pad4 n).length = 4 := by
  by_cases h1 : n < 10
  · have := toString_length_one_of_lt_ten n h1
    simp [pad4, h1, String.length_append, this]
    decide
  · by_cases h2 : n < 100
    · have := toString_length_two n (by omega) h2
      simp [pad4, h1, h2, String.length_append, this]
      decide
    · by_cases h3 : n < 1000
      · have := toString_length_three n (by omega) h3
        simp [pad4, h1, h2, h3, String.length_append, this]
        decide
      · have := toString_length_four n (by omega) h
        simp [pad4, h1, h2, h3, this]

/-! ## Export filename and sink path
(`data_lake_transformer.py`, lines 119-130 and 154-167). -/

/-- strftime "%Y%m%d%H%M%S" of `datetime.now()`: the export timestamp. -/
def fmtExportTimestamp (t : Timestamp) : String :=
  pad4 t.year ++ pad2 t.month ++ pad2 t.day ++ pad2 t.hour ++
    pad2 t.minute ++ pad2 t.second

/-- Python `list.insert(i, x)`: insert `x` before position `i`
(clamped to the end of the list). -/
def pyInsert {α : Type} : List α → Nat → α → List α
  | l, 0, x => x :: l
  | [], _ + 1, x => [x]
  | a :: l, n + 1, x => a :: pyInsert l n x

/-- Python truthiness of an `Optional[str]`: `None` and `""` are falsy. -/
def pyTruthy : Option String → Bool
  | none => false
  | some s => decide (s ≠ "")

/-- `DataLakeTransformer._generate_export_filename`, with `datetime.now()`
and `uuid.uuid4()` passed in as the current time and the uuid character
sequence: builds `[data_type, timestamp, unique_id]`, runs
`filename_parts.insert(2, partition_key)` when `partition_key` is truthy,
and joins with underscores plus the extension. -/
def generate_export_filename (data_type : String) (now : Timestamp)
    (uuidChars : List Char) (file_extension : String)
    (partition_key : Option String) : String :=
  let timestamp := fmtExportTimestamp now
  let unique_id := (uuidChars.take 8).asString
  let filename_parts := [data_type, timestamp, unique_id]
  let filename_parts :=
    if pyTruthy partition_key then
      pyInsert filename_parts 2 (partition_key.getD "")
    else filename_parts
  String.intercalate "_" filename_parts ++ "." ++ file_extension

/-- `DataLakeTransformer._create_sink_path`:
`f"s3://{sink_bucket}/{sink_key_path}/{sink_filename}"` where the filename is
generated with the default extension and no partition key. -/
def create_sink_path (data_type : String) (sink_bucket sink_key_path : String)
    (now : Timestamp) (uuidChars : List Char) : String :=
  "s3://" ++ sink_bucket ++ "/" ++ sink_key_path ++ "/" ++
    generate_export_filename data_type now uuidChars "parquet" none

/-- C6 counterexample: at 2023-01-01T12:00:00 with uuid prefix `abcd1234` and
partition key `pk`, the generated filename places the partition-key segment
AFTER the timestamp (`clean_20230101120000_pk_abcd1234.parquet`), not before
it as the claim states; moreover an empty (non-None) partition key inserts no
segment at all. -/
theorem c6_counterexample :
    generate_export_filename "clean" ⟨2023, 1, 1, 12, 0, 0⟩
        "abcd1234".data "parquet" (some "pk")
      = "clean_20230101120000_pk_abcd1234.parquet"
    ∧ generate_export_filename "clean" ⟨2023, 1, 1, 12, 0, 0⟩
        "abcd1234".data "parquet" (some "pk")
      ≠ "clean_pk_20230101120000_abcd1234.parquet"
    ∧ generate_export_filename "clean" ⟨2023, 1, 1, 12, 0, 0⟩
        "abcd1234".data "parquet" (some "")
      = "clean_20230101120000_abcd1234.parquet" := by
  refine ⟨by decide, by decide, by decide⟩

/-- C6 (amended): for every data_type and every non-None, non-empty
partition_key, the generated filename is
`{stage}_{timestamp}_{partition_key}_{shortid}.parquet` — the partition-key
segment sits after the 14-character YYYYMMDDHHMMSS timestamp and before the
8-character shortid; without a partition key the filename is
`{stage}_{timestamp}_{shortid}.parquet`. -/
theorem c6_export_filename (stage pk : String) (now : Timestamp)
    (uuid : List Char) (hpk : pk ≠ "") (hy : now.year < 10000)
    (hmo : now.month < 100) (hd : now.day < 100) (hh : now.hour < 100)
    (hmi : now.minute < 100) (hs : now.second < 100)
    (hu : 8 ≤ uuid.length) :
    generate_export_filename stage now uuid "parquet" (some pk)
      = stage ++ "_" ++ fmtExportTimestamp now ++ "_" ++ pk ++ "_"
          ++ (uuid.take 8).asString ++ ".parquet"
    ∧ generate_export_filename stage now uuid "parquet" none
      = stage ++ "_" ++ fmtExportTimestamp now ++ "_"
          ++ (uuid.take 8).asString ++ ".parquet"
    ∧ (fmtExportTimestamp now).length = 14
    ∧ ((uuid.take 8).asString).length = 8 := by
  refine ⟨?_, ?_, ?_, ?_⟩
  · simp [generate_export_filename, pyTruthy, pyInsert, hpk,
      String.intercalate, String.intercalate.go, String.append_assoc]
  · simp [generate_export_filename, pyTruthy,
      String.intercalate, String.intercalate.go, String.append_assoc]
  · have hy4 := pad4_length_four now.year hy
    have hmo2 := pad2_length_two_of_lt_hundred now.month hmo
    have hd2 := pad2_length_two_of_lt_hundred now.day hd
    have hh2 := pad2_length_two_of_lt_hundred now.hour hh
    have hmi2 := pad2_length_two_of_lt_hundred now.minute hmi
    have hs2 := pad2_length_two_of_lt_hundred now.second hs
    simp [fmtExportTimestamp, String.length_append, hy4, hmo2, hd2, hh2,
      hmi2, hs2]
  · show (uuid.take 8).length = 8
    simp [List.length_take, Nat.min_eq_left hu]

/-- C6 witness: the amended filename law evaluated at 2023-01-01T12:00:00,
uuid prefix `abcd1234`, stage `agg`, partition key `pk`. -/
theorem c6_witness :
    generate_export_filename "agg" ⟨2023, 1, 1, 12, 0, 0⟩
        "abcd1234efgh".data "parquet" (some "pk")
      = "agg" ++ "_" ++ fmtExportTimestamp ⟨2023, 1, 1, 12, 0, 0⟩ ++ "_"
          ++ "pk" ++ "_" ++ ("abcd1234efgh".data.take 8).asString ++ ".parquet"
    ∧ (fmtExportTimestamp ⟨2023, 1, 1, 12, 0, 0⟩).length = 14 :=
  ⟨(c6_export_filename "agg" "pk" ⟨2023, 1, 1, 12, 0, 0⟩ "abcd1234efgh".data
      (by decide) (by decide) (by decide) (by decide) (by decide) (by decide)
      (by decide) (by decide)).1,
   (c6_export_filename "agg" "pk" ⟨2023, 1, 1, 12, 0, 0⟩ "abcd1234efgh".data
      (by decide) (by decide) (by decide) (by decide) (by decide) (by decide)
      (by decide) (by decide)).2.2.1⟩

/-! ## Ingester construction and configuration
(`data_lake_ingester.py`, lines 216-247, 281-323). -/

/-- The `S3Credentials` dataclass. -/
structure S3Credentials where
  aws_access_key_id : String
  aws_secret_access_key : String
  region_name : Option String
  endpoint_url : Option String
  deriving DecidableEq, Repr

/-- A parsed ini configuration: ((section, option), value) entries;
`ConfigParser.get` finds the value for a section/option pair. -/
structure IniConfig where
  entries : List ((String × String) × String)
  deriving DecidableEq, Repr

/-- `ConfigParser.get sec opt`, as an option instead of
`NoSectionError`/`NoOptionError`. -/
def IniConfig.get? (c : IniConfig) (sec opt : String) : Option String :=
  (c.entries.find? (fun e => e.1 == (sec, opt))).map Prod.snd

/-- Errors raised while constructing the ingester. The spec's
`ConfigurationError` kind is the `KeyError` the code raises when config
entries are missing. -/
inductive IngestError where
  | configurationError : String → IngestError
  deriving DecidableEq, Repr

/-- `DataLakeIngester._get_s3_credentials`: reads the two required keys
(raising for a missing one) and the two optional ones. -/
def get_s3_credentials (config : IniConfig) : Except IngestError S3Credentials :=
  match config.get? "aws" "s3_access_key_id",
      config.get? "aws" "s3_secret_access_key" with
  | some ak, some sk =>
      .ok ⟨ak, sk, config.get? "aws" "s3_region_name",
        config.get? "aws" "s3_endpoint_url"⟩
  | _, _ => .error (.configurationError "Missing S3 credentials in config")

/-- `DataLakeIngester._bronze_bucket_name`. -/
def bronze_bucket_name (config : IniConfig) : Except IngestError String :=
  match config.get? "datalake" "bronze_bucket" with
  | some b => .ok b
  | none => .error (.configurationError "Missing bronze bucket name in config")

/-- The fields a successfully constructed `DataLakeIngester` holds. -/
structure IngesterState where
  dataset_base_path : String
  credentials : S3Credentials
  bronze_bucket : String
  deriving DecidableEq, Repr

/-- A network side effect of the ingestion pipeline. -/
inductive Effect where
  | httpGet : String → Effect
  | s3Upload : String → Effect
  deriving DecidableEq, Repr

/-- `DataLakeIngester.__init__` with no injected storage: loads the config,
resolves credentials then the bronze bucket name, and builds the S3 client
locally (`boto3.client` does not contact the network). The effect list
records every network call made during construction. -/
def ingester_init (dataset_base_path : String) (config : IniConfig) :
    Except IngestError IngesterState × List Effect :=
  match get_s3_credentials config with
  | .error e => (.error e, [])
  | .ok creds =>
    match bronze_bucket_name config with
    | .error e => (.error e, [])
    | .ok bucket => (.ok ⟨dataset_base_path, creds, bucket⟩, [])

/-- C7: constructing a `DataLakeIngester` from a configuration missing the
access key, the secret key or the bronze bucket name fails with the
missing-credential/configuration error, and no network call is attempted. -/
theorem c7_missing_config_fails_fast (base : String) (config : IniConfig)
    (hmiss : config.get? "aws" "s3_access_key_id" = none
      ∨ config.get? "aws" "s3_secret_access_key" = none
      ∨ config.get? "datalake" "bronze_bucket" = none) :
    (∃ m : String,
      (ingester_init base config).1 = .error (.configurationError m))
    ∧ (ingester_init base config).2 = [] := by
  rcases hmiss with h | h | h
  · exact ⟨⟨"Missing S3 credentials in config",
      by simp [ingester_init, get_s3_credentials, h]⟩,
      by simp [ingester_init, get_s3_credentials, h]⟩
  · cases hak : config.get? "aws" "s3_access_key_id" with
    | none =>
      exact ⟨⟨"Missing S3 credentials in config",
        by simp [ingester_init, get_s3_credentials, hak]⟩,
        by simp [ingester_init, get_s3_credentials, hak]⟩
    | some ak =>
      exact ⟨⟨"Missing S3 credentials in config",
        by simp [ingester_init, get_s3_credentials, hak, h]⟩,
        by simp [ingester_init, get_s3_credentials, hak, h]⟩
  · cases hak : config.get? "aws" "s3_access_key_id" with
    | none =>
      exact ⟨⟨"Missing S3 credentials in config",
        by simp [ingester_init, get_s3_credentials, hak]⟩,
        by simp [ingester_init, get_s3_credentials, hak]⟩
    | some ak =>
      cases hsk : config.get? "aws" "s3_secret_access_key" with
      | none =>
        exact ⟨⟨"Missing S3 credentials in config",
          by simp [ingester_init, get_s3_credentials, hak, hsk]⟩,
          by simp [ingester_init, get_s3_credentials, hak, hsk]⟩
      | some sk =>
        exact ⟨⟨"Missing bronze bucket name in config",
          by simp [ingester_init, get_s3_credentials, bronze_bucket_name,
            hak, hsk, h]⟩,
          by simp [ingester_init, get_s3_credentials, bronze_bucket_name,
            hak, hsk, h]⟩

/-- C7 witness: an empty configuration makes construction fail with the
configuration error before any network call. -/
theorem c7_witness :
    (∃ m : String, (ingester_init "gharchive/events" ⟨[]⟩).1
      = .error (.configurationError m))
    ∧ (ingester_init "gharchive/events" ⟨[]⟩).2 = [] :=
  c7_missing_config_fails_fast "gharchive/events" ⟨[]⟩ (Or.inl rfl)

/-! ## ingest_hourly_gharchive control flow
(`data_lake_ingester.py`, lines 249-279). -/

/-- Runtime exceptions during one ingestion: the collector's failure (the
spec's `TransferError`, carrying the HTTP status) or the sink's
(`StorageWriteError`). -/
inductive TransferExc where
  | transferError : Nat → TransferExc
  | storageWriteError : String → TransferExc
  deriving DecidableEq, Repr

/-- What one `ingest_hourly_gharchive` call did: its result, the network
effects it attempted in order, and the error log line it emitted. -/
structure IngestOutcome where
  result : Except TransferExc Unit
  effects : List Effect
  errorLog : Option String
  deriving Repr

/-- `DataLakeIngester.ingest_hourly_gharchive`, parametrised by the injected
collector and storage behaviours: derive the filename, URL and sink key,
call `collect`, then `store`; on any failure log
`f"Failed to ingest data for {process_date}: ..."` and re-raise. -/
def ingest_hourly_gharchive
    (collectorResp : String → Except TransferExc (List UInt8))
    (storageResp : List UInt8 → String → Except TransferExc Unit)
    (dataset_base_path : String) (process_date : Datetime) : IngestOutcome :=
  let data_filename := derive_source_filename process_date
  let data_url := derive_source_url process_date
  let s3_key := generate_sink_key process_date data_filename dataset_base_path
  match collectorResp data_url with
  | .error e =>
      ⟨.error e, [.httpGet data_url],
        some ("Failed to ingest data for " ++ pyDatetimeStr process_date)⟩
  | .ok data =>
      match storageResp data s3_key with
      | .error e =>
          ⟨.error e, [.httpGet data_url, .s3Upload s3_key],
            some ("Failed to ingest data for " ++ pyDatetimeStr process_date)⟩
      | .ok _ => ⟨.ok (), [.httpGet data_url, .s3Upload s3_key], none⟩

/-- C8: if the collector fails inside `ingest_hourly_gharchive`, the failure
propagates unchanged, the failed timestamp is logged, and the storage sink
is never invoked — no upload effect is attempted. -/
theorem c8_collect_failure_no_store
    (collectorResp : String → Except TransferExc (List UInt8))
    (storageResp : List UInt8 → String → Except TransferExc Unit)
    (base : String) (d : Datetime) (e : TransferExc)
    (hfail : collectorResp (derive_source_url d) = .error e) :
    (ingest_hourly_gharchive collectorResp storageResp base d).result
      = .error e
    ∧ (ingest_hourly_gharchive collectorResp storageResp base d).effects
      = [.httpGet (derive_source_url d)]
    ∧ (∀ k : String, Effect.s3Upload k
        ∉ (ingest_hourly_gharchive collectorResp storageResp base d).effects)
    ∧ (ingest_hourly_gharchive collectorResp storageResp base d).errorLog
      = some ("Failed to ingest data for " ++ pyDatetimeStr d) := by
  refine ⟨?_, ?_, ?_, ?_⟩ <;>
    simp [ingest_hourly_gharchive, hfail]

/-- C8 witness: a collector that always returns HTTP 404 propagates
`transferError 404` out of the ingest call for 2023-01-01T12:00 and
attempts no upload. -/
theorem c8_witness :
    (ingest_hourly_gharchive (fun _ => .error (.transferError 404))
        (fun _ _ => .ok ()) "gharchive/events" ⟨2023, 1, 1, 12⟩).result
      = .error (.transferError 404)
    ∧ (∀ k : String, Effect.s3Upload k
        ∉ (ingest_hourly_gharchive (fun _ => .error (.transferError 404))
            (fun _ _ => .ok ()) "gharchive/events" ⟨2023, 1, 1, 12⟩).effects) :=
  ⟨(c8_collect_failure_no_store _ _ "gharchive/events" ⟨2023, 1, 1, 12⟩
      (.transferError 404) rfl).1,
   (c8_collect_failure_no_store _ _ "gharchive/events" ⟨2023, 1, 1, 12⟩
      (.transferError 404) rfl).2.2.1⟩

/-! ## Batch aggregation driver (`scripts/run_batch_agg_data.py`). -/

/-- The parameter names of `DataLakeTransformer.__init__` besides `self`:
the constructor accepts no further arguments. -/
def transformerInitParams : List String := []

/-- Python keyword-argument binding: every keyword must name a declared
parameter, otherwise the call raises `TypeError`. -/
def bindKwargs (params : List String) (kwargs : List String) :
    Except PyExc Unit :=
  if kwargs.all (fun k => params.contains k) then .ok ()
  else .error (.typeError "unexpected keyword argument")

/-- What the driver's try-body did: the constructor's outcome and how many
times `aggregate_silver_data` ran. -/
structure BatchAggOutcome where
  constructionResult : Except PyExc Unit
  aggregateCalls : Nat
  deriving Repr

/-- The try-body of `main` in `run_batch_agg_data.py`, dates as inclusive
day ordinals: construct
`DataLakeTransformer(dataset_base_path='gharchive/events')`, then call
`aggregate_silver_data` once per day of the range. A constructor exception
aborts before the loop is entered. -/
def run_batch_agg_main (startDay endDay : Nat) : BatchAggOutcome :=
  match bindKwargs transformerInitParams ["dataset_base_path"] with
  | .error e => ⟨.error e, 0⟩
  | .ok _ => ⟨.ok (), endDay + 1 - startDay⟩

/-- C10: for every valid (start ≤ end) date range, the aggregation batch
driver raises `TypeError` while constructing the transformer — the
`dataset_base_path` keyword matches no parameter of
`DataLakeTransformer.__init__` — and `aggregate_silver_data` is never
called. -/
theorem c10_driver_type_error (s e : Nat) (h : s ≤ e) :
    run_batch_agg_main s e
      = ⟨.error (.typeError "unexpected keyword argument"), 0⟩
    ∧ bindKwargs transformerInitParams ["dataset_base_path"]
      = .error (.typeError "unexpected keyword argument")
    ∧ (run_batch_agg_main s e).aggregateCalls = 0 := ⟨rfl, rfl, rfl⟩

/-- C10 witness: the single-day range 0..0 already fails construction and
performs no aggregation. -/
theorem c10_witness :
    run_batch_agg_main 0 0
      = ⟨.error (.typeError "unexpected keyword argument"), 0⟩ :=
  (c10_driver_type_error 0 0 (Nat.le_refl 0)).1

end DuckdbPipeline
